import Mathlib

/-!
Verification of the tiny-webui/types protocol definitions.

The repository declares, in TypeScript, the wire types of a chat/model-inference
synchronization protocol in two generations:
* `src/Rpc.ts` — the current RPC envelope and its `ErrorCode` enumeration;
* `src/unnamed/part_000` — the earlier RPC envelope revision with a smaller
  `ErrorCode` enumeration;
* `src/IServer.ts` — the current server interface and data types;
* `src/unnamed/part_001` — the earlier server interface revision.

This file embeds those declarations shallowly: TypeScript string-literal unions
become inductives, object types become structures, object index signatures become
association lists, and each interface's method surface is recorded as the list of
its method names. Theorems below settle description claims about these
declarations.
-/

namespace TinyWebUI

/-- Placeholder for the TypeScript type `unknown` (and `any` in the earlier
revision): an uninterpreted value. -/
inductive Unknown where
  | mk (tag : String)
deriving DecidableEq

/-! ### Current RPC generation, from src/Rpc.ts -/

/-- RPC error codes of the current generation, from the `ErrorCode` enum in
src/Rpc.ts lines 33–43. -/
inductive ErrorCode where
  | NOT_MODIFIED
  | BAD_REQUEST
  | UNAUTHORIZED
  | NOT_FOUND
  | CONFLICT
  | LOCKED
  | INTERNAL_SERVER_ERROR
  | NOT_IMPLEMENTED
  | BAD_GATEWAY
deriving DecidableEq

/-- Numeric value of each current-generation error code, from src/Rpc.ts. -/
def ErrorCode.code : ErrorCode → Nat
  | .NOT_MODIFIED => 304
  | .BAD_REQUEST => 400
  | .UNAUTHORIZED => 401
  | .NOT_FOUND => 404
  | .CONFLICT => 409
  | .LOCKED => 423
  | .INTERNAL_SERVER_ERROR => 500
  | .NOT_IMPLEMENTED => 501
  | .BAD_GATEWAY => 502

/-- Symbolic name of each current-generation error code. -/
def ErrorCode.name : ErrorCode → String
  | .NOT_MODIFIED => "NOT_MODIFIED"
  | .BAD_REQUEST => "BAD_REQUEST"
  | .UNAUTHORIZED => "UNAUTHORIZED"
  | .NOT_FOUND => "NOT_FOUND"
  | .CONFLICT => "CONFLICT"
  | .LOCKED => "LOCKED"
  | .INTERNAL_SERVER_ERROR => "INTERNAL_SERVER_ERROR"
  | .NOT_IMPLEMENTED => "NOT_IMPLEMENTED"
  | .BAD_GATEWAY => "BAD_GATEWAY"

/-- Enumeration of every current-generation error code, in source order. -/
def ErrorCode.all : List ErrorCode :=
  [.NOT_MODIFIED, .BAD_REQUEST, .UNAUTHORIZED, .NOT_FOUND, .CONFLICT, .LOCKED,
   .INTERNAL_SERVER_ERROR, .NOT_IMPLEMENTED, .BAD_GATEWAY]

/-! ### Earlier RPC generation, from src/unnamed/part_000 -/

namespace V0

/-- RPC error codes of the earlier generation, from the `ErrorCode` enum in
src/unnamed/part_000 lines 33–38. -/
inductive ErrorCode where
  | NOT_MODIFIED
  | NOT_FOUND
  | CONFLICT
  | LOCKED
deriving DecidableEq

/-- Numeric value of each earlier-generation error code. -/
def ErrorCode.code : ErrorCode → Nat
  | .NOT_MODIFIED => 304
  | .NOT_FOUND => 404
  | .CONFLICT => 409
  | .LOCKED => 423

/-- Symbolic name of each earlier-generation error code. -/
def ErrorCode.name : ErrorCode → String
  | .NOT_MODIFIED => "NOT_MODIFIED"
  | .NOT_FOUND => "NOT_FOUND"
  | .CONFLICT => "CONFLICT"
  | .LOCKED => "LOCKED"

/-- Enumeration of every earlier-generation error code, in source order. -/
def ErrorCode.all : List ErrorCode :=
  [.NOT_MODIFIED, .NOT_FOUND, .CONFLICT, .LOCKED]

end V0

/-- C1: the current-generation `ErrorCode` enumeration maps exactly the nine
symbolic names NOT_MODIFIED, BAD_REQUEST, UNAUTHORIZED, NOT_FOUND, CONFLICT,
LOCKED, INTERNAL_SERVER_ERROR, NOT_IMPLEMENTED, BAD_GATEWAY to the numeric
values 304, 400, 401, 404, 409, 423, 500, 501, 502, and defines no other code. -/
theorem c1_error_code_table :
    (∀ e : ErrorCode, e ∈ ErrorCode.all) ∧
    ErrorCode.all.map (fun e => (e.name, e.code)) =
      [("NOT_MODIFIED", 304), ("BAD_REQUEST", 400), ("UNAUTHORIZED", 401),
       ("NOT_FOUND", 404), ("CONFLICT", 409), ("LOCKED", 423),
       ("INTERNAL_SERVER_ERROR", 500), ("NOT_IMPLEMENTED", 501),
       ("BAD_GATEWAY", 502)] ∧
    ErrorCode.all.Nodup := by
  refine ⟨fun e => ?_, rfl, by decide⟩
  cases e <;> simp [ErrorCode.all]

/-- C6 counterexample: none of the symbolic names OUTDATED, BUSY,
LOCK_NOT_HELD, STREAM_INTERRUPTED is defined by the earlier-generation
`ErrorCode` enumeration in src/unnamed/part_000; that enumeration consists of
NOT_MODIFIED, NOT_FOUND, CONFLICT and LOCKED instead. -/
theorem c6_counterexample :
    "OUTDATED" ∉ V0.ErrorCode.all.map V0.ErrorCode.name ∧
    "BUSY" ∉ V0.ErrorCode.all.map V0.ErrorCode.name ∧
    "LOCK_NOT_HELD" ∉ V0.ErrorCode.all.map V0.ErrorCode.name ∧
    "STREAM_INTERRUPTED" ∉ V0.ErrorCode.all.map V0.ErrorCode.name := by
  refine ⟨?_, ?_, ?_, ?_⟩ <;> decide

/-- C6 amended: the earlier protocol generation's `ErrorCode` enumeration
consists of exactly NOT_MODIFIED(304), NOT_FOUND(404), CONFLICT(409) and
LOCKED(423). -/
theorem c6_earlier_error_code_table :
    (∀ e : V0.ErrorCode, e ∈ V0.ErrorCode.all) ∧
    V0.ErrorCode.all.map (fun e => (e.name, e.code)) =
      [("NOT_MODIFIED", 304), ("NOT_FOUND", 404), ("CONFLICT", 409),
       ("LOCKED", 423)] ∧
    V0.ErrorCode.all.Nodup := by
  refine ⟨fun e => ?_, rfl, by decide⟩
  cases e <;> simp [V0.ErrorCode.all]

/-! ### Messages and chat histories, from src/IServer.ts (current) and
src/unnamed/part_001 (earlier) -/

/-- Message roles, from the string-literal union in the `Message` type
(src/IServer.ts line 36, identical in src/unnamed/part_001 line 2). -/
inductive Role where
  | user
  | assistant
  | developer
deriving DecidableEq

/-- Content-part kinds, from the string-literal union in the `Message` type
(src/IServer.ts line 38, identical in src/unnamed/part_001 line 4). -/
inductive ContentType where
  | text
  | image_url
  | refusal
deriving DecidableEq

/-- One element of a message's `content` array: a kind tag and a data string. -/
structure ContentPart where
  type : ContentType
  data : String
deriving DecidableEq

/-- The `Message` type: a role and an array of content parts. -/
structure Message where
  role : Role
  content : List ContentPart
deriving DecidableEq

/-- The `MessageNode` type (src/IServer.ts lines 43–49, identical in
src/unnamed/part_001 lines 9–15): node id, message payload, optional parent id,
child ids, and a numeric creation timestamp. -/
structure MessageNode where
  id : String
  message : Message
  parent : Option String
  children : List String
  timestamp : Nat
deriving DecidableEq

/-- The current-generation `TreeHistory` type (src/IServer.ts lines 53–57):
only a map from node id to `MessageNode`, embedded as an association list.
It has no further field. -/
structure TreeHistory where
  nodes : List (String × MessageNode)
deriving DecidableEq

/-- The current-generation chat-list entry (element type of `GetChatListResult`,
src/IServer.ts lines 66–71): an id and an optional metadata map, which is
returned only for the requested `metaDataKeys`. -/
structure ChatListEntry where
  id : String
  metadata : Option (List (String × Unknown))
deriving DecidableEq

/-- The current-generation `GetChatListResult`: an array of entries. -/
abbrev GetChatListResult := List ChatListEntry

namespace V1

/-- The earlier-generation `TreeHistory` type (src/unnamed/part_001 lines
19–24): the node map together with a distinguished `head` node id. -/
structure TreeHistory where
  nodes : List (String × MessageNode)
  head : String
deriving DecidableEq

/-- An element of the earlier-generation chat list (src/unnamed/part_001 lines
33–37): id, title and timestamp. -/
structure ChatListEntry where
  id : String
  title : String
  timestamp : Nat
deriving DecidableEq

/-- The earlier-generation `GetChatListResult` (src/unnamed/part_001 lines
32–39): the page of entries and a has-more flag. -/
structure GetChatListResult where
  list : List ChatListEntry
  hasMore : Bool
deriving DecidableEq

end V1

/-- C9: every `Message` has a role drawn from exactly the three values user,
assistant, developer, and every content part has a type drawn from exactly the
three values text, image_url, refusal; the three values are pairwise distinct in
each case, so developer and refusal are admissible. -/
theorem c9_message_role_and_content_types :
    (∀ m : Message, m.role = .user ∨ m.role = .assistant ∨ m.role = .developer) ∧
    (∀ p : ContentPart, p.type = .text ∨ p.type = .image_url ∨ p.type = .refusal) ∧
    ([Role.user, Role.assistant, Role.developer] : List Role).Nodup ∧
    ([ContentType.text, ContentType.image_url, ContentType.refusal] : List ContentType).Nodup := by
  refine ⟨fun m => ?_, fun p => ?_, by decide, by decide⟩
  · rcases m with ⟨r, c⟩
    cases r <;> simp
  · rcases p with ⟨t, d⟩
    cases t <;> simp

/-- C3 counterexample: the current-generation `TreeHistory` (src/IServer.ts)
carries no information besides the node map — at the concrete empty node map
there is exactly one history value, so no distinguished head node identifier is
carried in addition to the map, while the earlier-generation type admits two
histories with that node map and different heads. -/
theorem c3_counterexample :
    {t : TreeHistory | t.nodes = []} = {(⟨[]⟩ : TreeHistory)} ∧
    {t : V1.TreeHistory | t.nodes = []} ≠ {(⟨[], "a"⟩ : V1.TreeHistory)} := by
  constructor
  · ext t
    rcases t with ⟨n⟩
    simp [Set.mem_setOf_eq, TreeHistory.mk.injEq]
  · intro h
    have hb : (⟨[], "b"⟩ : V1.TreeHistory) ∈ {t : V1.TreeHistory | t.nodes = []} := rfl
    rw [h] at hb
    simp [V1.TreeHistory.mk.injEq] at hb

/-- C3 amended: the earlier-generation `TreeHistory` (src/unnamed/part_001)
carries, in addition to the node map, a distinguished head node identifier —
two histories can agree on the node map yet differ in `head` — and consists of
exactly those two components; the current-generation `TreeHistory`
(src/IServer.ts) carries the node map only. -/
theorem c3_tree_history_head :
    (∃ t₁ t₂ : V1.TreeHistory, t₁.nodes = t₂.nodes ∧ t₁.head ≠ t₂.head) ∧
    (∀ t : V1.TreeHistory, t = ⟨t.nodes, t.head⟩) ∧
    (∀ t : TreeHistory, t = ⟨t.nodes⟩) := by
  refine ⟨⟨⟨[], "a"⟩, ⟨[], "b"⟩, rfl, by decide⟩, fun t => rfl, fun t => rfl⟩

/-- C4 counterexample: in the current generation (src/IServer.ts) a chat-list
entry need not carry a title or a timestamp — the entry consisting of an id and
no metadata is a legal element of `GetChatListResult`. -/
theorem c4_counterexample :
    ({ id := "c1", metadata := none } : ChatListEntry).metadata = none ∧
    ([{ id := "c1", metadata := none }] : GetChatListResult).length = 1 :=
  ⟨rfl, rfl⟩

/-- C4 amended: in the earlier generation every chat-list entry consists of
exactly an id, a title and a timestamp; in the current generation an entry
consists of an id and an optional metadata map, which is present only when
metadata keys were requested and may be absent. -/
theorem c4_chat_list_entries :
    (∀ e : V1.ChatListEntry, e = ⟨e.id, e.title, e.timestamp⟩) ∧
    (∀ r : V1.GetChatListResult, r = ⟨r.list, r.hasMore⟩) ∧
    (∀ e : ChatListEntry, e = ⟨e.id, e.metadata⟩) :=
  ⟨fun _ => rfl, fun _ => rfl, fun _ => rfl⟩

/-! ### Metadata access-control table, from the comment in src/IServer.ts
lines 162–176 -/

/-- Resource-path kinds of the metadata namespace. -/
inductive PathKind where
  | global
  | model
  | user
  | userPublic
  | chat
deriving DecidableEq

/-- A caller classified relative to the resource's owning user. -/
inductive Caller where
  | admin
  | currentUser
  | otherUser
deriving DecidableEq

/-- Access levels of the table. -/
inductive Access where
  | none
  | read
  | readWrite
deriving DecidableEq

/-- The metadata access table, transcribed row by row from the comment table in
src/IServer.ts lines 169–175: global and model entries are admin read/write and
read for everyone else; user and chat entries are owner read/write and
inaccessible to everyone else; userPublic entries are admin read, owner
read/write, and inaccessible to other users. -/
def metadataAccess : PathKind → Caller → Access
  | .global, .admin => .readWrite
  | .global, _ => .read
  | .model, .admin => .readWrite
  | .model, _ => .read
  | .user, .currentUser => .readWrite
  | .user, _ => .none
  | .userPublic, .admin => .read
  | .userPublic, .currentUser => .readWrite
  | .userPublic, .otherUser => .none
  | .chat, .currentUser => .readWrite
  | .chat, _ => .none

/-- Whether an access level permits reading. -/
def Access.canRead : Access → Bool
  | .none => false
  | _ => true

/-- Whether an access level permits writing. -/
def Access.canWrite : Access → Bool
  | .readWrite => true
  | _ => false

/-- C2 counterexample: in the access table of src/IServer.ts, users other than
the owning user have no access at all to `userPublic` entries — in particular
they cannot read them. -/
theorem c2_counterexample :
    metadataAccess .userPublic .otherUser = .none ∧
    (metadataAccess .userPublic .otherUser).canRead = false :=
  ⟨rfl, rfl⟩

/-- C2 amended: for `userPublic` paths the admin has read access, the owning
user has read/write access to their own entry, and users other than the owning
user have no access. -/
theorem c2_user_public_access :
    metadataAccess .userPublic .admin = .read ∧
    metadataAccess .userPublic .currentUser = .readWrite ∧
    metadataAccess .userPublic .otherUser = .none :=
  ⟨rfl, rfl, rfl⟩

/-! ### Method surfaces of the two server-interface generations -/

/-- Method names of the earlier-generation `IServer` interface, in declaration
order (src/unnamed/part_001 lines 132–238). The delete-chat method is declared
as `DeleteChat`, with a capital D; user management is only a todo comment
there. -/
def v1Methods : List String :=
  ["getChatListVersion", "getChatList", "newChat", "lockChat", "DeleteChat",
   "getChat", "generateChatTitle", "setChatTitle", "setChatMetadata",
   "getChatMetadata", "deleteChatMetadata", "chatCompletion",
   "getLastCompletionInfo", "getModels", "newModel", "getModelParams",
   "modifyModel", "deleteModel"]

/-- Method names of the current-generation `IServer` interface, in declaration
order (src/IServer.ts lines 187–246). -/
def iServerMethods : List String :=
  ["setMetadataAsync", "getMetadataAsync", "deleteMetadataAsync",
   "getChatListAsync", "newChatAsync", "getChatAsync", "deleteChatAsync",
   "chatCompletionAsync", "executeGenerationTaskAsync", "getModelListAsync",
   "newModelAsync", "getModelAsync", "deleteModelAsync", "modifyModelAsync",
   "getUserListAsync", "newUserAsync", "deleteUserAsync",
   "getUserAdminSettingsAsync", "setUserAdminSettingsAsync",
   "setUserCredentialAsync"]

/-- C5 counterexample: no interface generation declares a method named
`deleteChat` — the earlier generation spells it `DeleteChat` and the current
generation `deleteChatAsync` — and the earlier generation, which carries
`getChatListVersion` and `lockChat`, declares no user-management method, while
the current generation, which carries the user-management methods, declares
neither `getChatListVersion` nor `lockChat`; so no one method surface includes
all the operations the claim lists. -/
theorem c5_counterexample :
    "deleteChat" ∉ v1Methods ∧ "deleteChat" ∉ iServerMethods ∧
    "DeleteChat" ∈ v1Methods ∧
    "getChatListVersion" ∉ iServerMethods ∧ "lockChat" ∉ iServerMethods ∧
    "getUserListAsync" ∉ v1Methods ∧ "setUserCredentialAsync" ∉ v1Methods := by
  refine ⟨?_, ?_, ?_, ?_, ?_, ?_, ?_⟩ <;> decide

/-- C5 amended: the earlier-generation interface surface consists of
getChatListVersion, getChatList, newChat, lockChat, DeleteChat (so spelled),
getChat, generateChatTitle, setChatTitle, the chat-metadata set/get/delete
calls, the streaming chatCompletion, getLastCompletionInfo, getModels,
newModel, getModelParams, modifyModel and deleteModel; the user-management
calls (list/new/delete/get-or-set admin settings/set credential) appear only in
the current-generation interface, as getUserListAsync, newUserAsync,
deleteUserAsync, getUserAdminSettingsAsync, setUserAdminSettingsAsync and
setUserCredentialAsync. -/
theorem c5_method_surface :
    (["getChatListVersion", "getChatList", "newChat", "lockChat", "DeleteChat",
      "getChat", "generateChatTitle", "setChatTitle", "setChatMetadata",
      "getChatMetadata", "deleteChatMetadata", "chatCompletion",
      "getLastCompletionInfo", "getModels", "newModel", "getModelParams",
      "modifyModel", "deleteModel"].all
        (fun m => v1Methods.contains m) = true) ∧
    (["getUserListAsync", "newUserAsync", "deleteUserAsync",
      "getUserAdminSettingsAsync", "setUserAdminSettingsAsync",
      "setUserCredentialAsync"].all
        (fun m => iServerMethods.contains m && !(v1Methods.contains m)) = true) ∧
    v1Methods.length = 18 ∧ iServerMethods.length = 20 := by
  refine ⟨?_, ?_, rfl, rfl⟩ <;> decide

/-! ### Streaming chat completion, current generation -/

/-- The terminal value type of `chatCompletionAsync` (src/IServer.ts lines
81–84): exactly a user-message id and an assistant-message id. -/
structure ChatCompletionInfo where
  userMessageId : String
  assistantMessageId : String
deriving DecidableEq

/-- Outcome of a streaming request per the envelope contract of src/Rpc.ts:
zero or more intermediate yields followed by either exactly one terminal
result or an error. -/
inductive StreamOutcome (Y R : Type) where
  | completed (yields : List Y) (result : R)
  | failed (yields : List Y) (code : ErrorCode) (message : String)

/-- Terminal result delivered by the current-generation streaming call
`chatCompletionAsync`, whose generator yields strings and returns a
`ChatCompletionInfo` (src/IServer.ts line 202). -/
def chatCompletionTerminal :
    StreamOutcome String ChatCompletionInfo → Option ChatCompletionInfo
  | .completed _ r => some r
  | .failed _ _ _ => Option.none

/-- C7: every completed chat completion delivers as its terminal stream result
a `ChatCompletionInfo`, which consists of exactly the two fields userMessageId
and assistantMessageId: every such value equals the pair of its two fields, and
each of the two fields carries information the other does not determine. -/
theorem c7_completed_terminal_result :
    (∀ (ys : List String) (r : ChatCompletionInfo),
        chatCompletionTerminal (.completed ys r) = some r) ∧
    (∀ r : ChatCompletionInfo, r = ⟨r.userMessageId, r.assistantMessageId⟩) ∧
    (∃ r₁ r₂ : ChatCompletionInfo,
        r₁.userMessageId = r₂.userMessageId ∧ r₁ ≠ r₂) ∧
    (∃ r₁ r₂ : ChatCompletionInfo,
        r₁.assistantMessageId = r₂.assistantMessageId ∧ r₁ ≠ r₂) := by
  refine ⟨fun _ _ => rfl, fun _ => rfl,
    ⟨⟨"u", "a"⟩, ⟨"u", "b"⟩, rfl, by decide⟩,
    ⟨⟨"u", "a"⟩, ⟨"v", "a"⟩, rfl, by decide⟩⟩

/-! ### Result-type field analysis for provider-parameter exposure -/

/-- Field names of the `Message` type and its content parts. -/
def messageFieldNames : List String := ["role", "content", "type", "data"]

/-- Transitive field names of `MessageNode`. -/
def messageNodeFieldNames : List String :=
  ["id", "message", "parent", "children", "timestamp"] ++ messageFieldNames

/-- Transitive field names of the current-generation `TreeHistory`. -/
def treeHistoryFieldNames : List String := ["nodes"] ++ messageNodeFieldNames

/-- Field names of `ChatCompletionInfo`. -/
def chatCompletionInfoFieldNames : List String :=
  ["userMessageId", "assistantMessageId"]

/-- Field names of `ModelSettings` (src/IServer.ts lines 102–105). -/
def modelSettingsFieldNames : List String := ["providerName", "providerParams"]

/-- Field names of `UserAdminSettings` (src/IServer.ts lines 112–114). -/
def userAdminSettingsFieldNames : List String := ["role"]

/-- Field names of a `GetChatListResult` element (src/IServer.ts lines 66–71);
the metadata map's keys are caller-chosen, not declared fields. -/
def chatListEntryFieldNames : List String := ["id", "metadata"]

/-- Field names of a `GetModelListResult` element (src/IServer.ts lines
95–100). -/
def modelListEntryFieldNames : List String := ["id", "metadata"]

/-- Transitive field names of a `GetUserListResult` element (src/IServer.ts
lines 129–137). -/
def userListEntryFieldNames : List String :=
  ["id", "userName", "adminSettings", "publicMetadata", "isSelf"] ++
    userAdminSettingsFieldNames

/-- Transitive declared field names of each current-generation method's result
type, transcribed from src/IServer.ts lines 187–246; void, string and
unknown-valued results declare no field. For the streaming
`chatCompletionAsync` the result type is the generator's return type
`ChatCompletionInfo`. -/
def resultFieldNames : String → List String
  | "getChatListAsync" => chatListEntryFieldNames
  | "getChatAsync" => treeHistoryFieldNames
  | "chatCompletionAsync" => chatCompletionInfoFieldNames
  | "getModelListAsync" => modelListEntryFieldNames
  | "getModelAsync" => modelSettingsFieldNames
  | "getUserListAsync" => userListEntryFieldNames
  | "getUserAdminSettingsAsync" => userAdminSettingsFieldNames
  | _ => []

/-- Current-generation methods whose doc comment in src/IServer.ts marks them
Admin only (lines 213–236). -/
def adminOnlyMethods : List String :=
  ["newModelAsync", "getModelAsync", "deleteModelAsync", "modifyModelAsync",
   "getUserListAsync", "newUserAsync", "setUserAdminSettingsAsync"]

/-- Field names of the earlier-generation `ModelInfo` (src/unnamed/part_001
lines 102–104). -/
def modelInfoFieldNames : List String := ["name"]

/-- Transitive declared field names of each earlier-generation method's result
type, transcribed from src/unnamed/part_001 lines 132–238; void, string and
`any`-typed results (in particular the opaque `ProviderParams` result of
getModelParams) declare no field. -/
def v1ResultFieldNames : String → List String
  | "getChatList" => ["list", "id", "title", "timestamp", "hasMore"]
  | "newChat" => ["id", "version"]
  | "lockChat" => ["alreadyHeld"]
  | "getChat" => ["nodes", "head"] ++ messageNodeFieldNames
  | "generateChatTitle" => ["title", "version"]
  | "setChatTitle" => ["version"]
  | "getChatMetadata" => ["entries"]
  | "getLastCompletionInfo" => ["userMessageId", "assistantMessageId"]
  | "getModels" => modelInfoFieldNames
  | "newModel" => modelInfoFieldNames
  | _ => []

/-- Whether an earlier-generation method's declared result type is the opaque
provider-parameter value itself: true exactly for `getModelParams`, whose
return type is `Promise<ProviderParams>` (src/unnamed/part_001 line 206). -/
def v1ResultIsProviderParams : String → Bool
  | "getModelParams" => true
  | _ => false

/-- Earlier-generation methods whose doc comment in src/unnamed/part_001 marks
them Admin only (lines 199–214). -/
def v1AdminOnlyMethods : List String :=
  ["newModel", "getModelParams", "modifyModel", "deleteModel"]

/-- C8: in the current generation the only method whose result type contains
`providerParams` is the admin-only `getModelAsync`; the model-listing call
`getModelListAsync` is open to any user and its result carries no
`providerParams`. In the earlier generation no method's result declares a
`providerParams` field, the only method whose result is the opaque provider
parameters is the admin-only `getModelParams`, and the listing call `getModels`
is open to any user. -/
theorem c8_provider_params_exposure :
    (∀ m ∈ iServerMethods,
        ("providerParams" ∈ resultFieldNames m ↔ m = "getModelAsync")) ∧
    "getModelAsync" ∈ adminOnlyMethods ∧
    "getModelListAsync" ∉ adminOnlyMethods ∧
    (∀ m ∈ v1Methods, "providerParams" ∉ v1ResultFieldNames m) ∧
    (∀ m ∈ v1Methods,
        (v1ResultIsProviderParams m = true ↔ m = "getModelParams")) ∧
    "getModelParams" ∈ v1AdminOnlyMethods ∧
    "getModels" ∉ v1AdminOnlyMethods := by
  refine ⟨?_, ?_, ?_, ?_, ?_, ?_, ?_⟩ <;> decide

/-- C8 witness: the equivalences instantiated at the parameter-fetch calls
themselves and at the two listing calls. -/
theorem c8_provider_params_exposure_witness :
    ("providerParams" ∈ resultFieldNames "getModelAsync" ↔
        "getModelAsync" = "getModelAsync") ∧
    ("providerParams" ∈ resultFieldNames "getModelListAsync" ↔
        "getModelListAsync" = "getModelAsync") ∧
    "providerParams" ∉ v1ResultFieldNames "getModels" ∧
    (v1ResultIsProviderParams "getModelParams" = true ↔
        "getModelParams" = "getModelParams") :=
  ⟨c8_provider_params_exposure.1 "getModelAsync" (by decide),
   c8_provider_params_exposure.1 "getModelListAsync" (by decide),
   c8_provider_params_exposure.2.2.2.1 "getModels" (by decide),
   c8_provider_params_exposure.2.2.2.2.1 "getModelParams" (by decide)⟩

/-! ### Server state and operation effects, current generation -/

/-- The `ModelSettings` type (src/IServer.ts lines 102–105): provider name and
opaque provider parameters. -/
structure ModelSettings where
  providerName : String
  providerParams : Unknown
deriving DecidableEq

/-- User roles, from the string-literal union in `UserAdminSettings`
(src/IServer.ts line 113). -/
inductive UserRole where
  | admin
  | user
deriving DecidableEq

/-- The `UserAdminSettings` type (src/IServer.ts lines 112–114). -/
structure UserAdminSettings where
  role : UserRole
deriving DecidableEq

/-- The `UserCredential` type (src/IServer.ts lines 116–123): three hex
strings. -/
structure UserCredential where
  w0 : String
  L : String
  salt : String
deriving DecidableEq

/-- A stored user: immutable user name, admin settings and credential
(src/IServer.ts lines 139–144). -/
structure UserRecord where
  userName : String
  adminSettings : UserAdminSettings
  credential : UserCredential
deriving DecidableEq

/-- Modelled from the spec: the repository declares only types and the
`IServer` interface, with no server implementation under src/, so the
server-side state is taken from the spec's data model — chats keyed by id,
path-scoped metadata, models keyed by id and users keyed by id. -/
structure ServerState where
  chats : List (String × TreeHistory)
  metadata : List (List String × List (String × Unknown))
  models : List (String × ModelSettings)
  users : List (String × UserRecord)
deriving DecidableEq

/-- One invocation of a current-generation `IServer` operation, with the
arguments its effect on server state depends on; ids created by the server
(new chat, new model, new user) and the message nodes appended by a completed
chat completion appear as parameters. -/
inductive Op where
  | setMetadata (path : List String) (entries : List (String × Unknown))
  | getMetadata (path : List String) (keys : List String)
  | deleteMetadata (path : List String) (keys : List String)
  | getChatList (start quantity : Nat)
  | newChat (id : String)
  | getChat (id : String)
  | deleteChat (id : String)
  | chatCompletion (id : String) (userNode assistantNode : MessageNode)
  | executeGenerationTask (modelId : String) (message : Message)
  | getModelList
  | newModel (id : String) (settings : ModelSettings)
  | getModel (id : String)
  | deleteModel (id : String)
  | modifyModel (id : String) (settings : ModelSettings)
  | getUserList
  | newUser (id : String) (record : UserRecord)
  | deleteUser (id : String)
  | getUserAdminSettings (id : String)
  | setUserAdminSettings (id : String) (settings : UserAdminSettings)
  | setUserCredential (userId : String) (credential : UserCredential)

/-- Modelled from the spec: the state effect of each current-generation
operation, following the spec's component design — the metadata calls touch
only the metadata store, the model calls only the model table, the user calls
only the user table, the read calls and the one-off generation task change
nothing, `newChatAsync` creates an empty chat, `deleteChatAsync` removes a
chat, and a completed `chatCompletionAsync` appends the user and assistant
message nodes to the addressed chat. Association lists are newest-first, so an
update prepends or rewrites in place. -/
def applyOp (op : Op) (s : ServerState) : ServerState :=
  match op with
  | .setMetadata path entries => { s with metadata := (path, entries) :: s.metadata }
  | .getMetadata _ _ => s
  | .deleteMetadata path keys =>
      { s with metadata := s.metadata.map (fun pe =>
          if pe.1 == path then
            (pe.1, pe.2.filter (fun kv => !(keys.contains kv.1)))
          else pe) }
  | .getChatList _ _ => s
  | .newChat id => { s with chats := (id, ⟨[]⟩) :: s.chats }
  | .getChat _ => s
  | .deleteChat id => { s with chats := s.chats.filter (fun c => c.1 != id) }
  | .chatCompletion id userNode assistantNode =>
      { s with chats := s.chats.map (fun c =>
          if c.1 == id then
            (c.1, ⟨(assistantNode.id, assistantNode) ::
                   (userNode.id, userNode) :: c.2.nodes⟩)
          else c) }
  | .executeGenerationTask _ _ => s
  | .getModelList => s
  | .newModel id settings => { s with models := (id, settings) :: s.models }
  | .getModel _ => s
  | .deleteModel id => { s with models := s.models.filter (fun m => m.1 != id) }
  | .modifyModel id settings =>
      { s with models := s.models.map (fun m =>
          if m.1 == id then (m.1, settings) else m) }
  | .getUserList => s
  | .newUser id record => { s with users := (id, record) :: s.users }
  | .deleteUser id => { s with users := s.users.filter (fun u => u.1 != id) }
  | .getUserAdminSettings _ => s
  | .setUserAdminSettings id settings =>
      { s with users := s.users.map (fun u =>
          if u.1 == id then (u.1, { u.2 with adminSettings := settings }) else u) }
  | .setUserCredential userId credential =>
      { s with users := s.users.map (fun u =>
          if u.1 == userId then (u.1, { u.2 with credential := credential }) else u) }

/-- Whether an operation is one of the three the claim allows to change chat
message content. -/
def Op.touchesChats : Op → Bool
  | .newChat _ => true
  | .deleteChat _ => true
  | .chatCompletion _ _ _ => true
  | _ => false

/-- A sample server state holding one chat, used to show the three permitted
operations really can change the chat table. -/
def sampleState : ServerState :=
  ⟨[("c1", ⟨[]⟩)], [], [], []⟩

/-- A sample user message node. -/
def sampleUserNode : MessageNode :=
  ⟨"u1", ⟨.user, [⟨.text, "hi"⟩]⟩, Option.none, ["a1"], 1⟩

/-- A sample assistant message node. -/
def sampleAssistantNode : MessageNode :=
  ⟨"a1", ⟨.assistant, [⟨.text, "hello"⟩]⟩, some "u1", [], 2⟩

/-- C10: the current-generation interface has no set-chat method, and among
its operations only `newChatAsync`, `deleteChatAsync` and `chatCompletionAsync`
change the chat table — every other operation leaves every chat's message nodes
unchanged, while each of those three does change the chat table on a sample
state. -/
theorem c10_chat_frame :
    "setChat" ∉ iServerMethods ∧ "setChatAsync" ∉ iServerMethods ∧
    (∀ (op : Op) (s : ServerState),
        op.touchesChats = false → (applyOp op s).chats = s.chats) ∧
    (applyOp (Op.newChat "c2") sampleState).chats ≠ sampleState.chats ∧
    (applyOp (Op.deleteChat "c1") sampleState).chats ≠ sampleState.chats ∧
    (applyOp (Op.chatCompletion "c1" sampleUserNode sampleAssistantNode)
        sampleState).chats ≠ sampleState.chats := by
  refine ⟨by decide, by decide, fun op s h => ?_, by decide, by decide, by decide⟩
  cases op <;> simp_all [applyOp, Op.touchesChats]

/-- C10 witness: a metadata write, a model modification and a chat read leave
the sample state's chat table unchanged. -/
theorem c10_chat_frame_witness :
    (applyOp (Op.setMetadata ["global"] []) sampleState).chats =
        sampleState.chats ∧
    (applyOp (Op.modifyModel "m1" ⟨"p", Unknown.mk "k"⟩) sampleState).chats =
        sampleState.chats ∧
    (applyOp (Op.getChat "c1") sampleState).chats = sampleState.chats :=
  ⟨c10_chat_frame.2.2.1 (Op.setMetadata ["global"] []) sampleState rfl,
   c10_chat_frame.2.2.1 (Op.modifyModel "m1" ⟨"p", Unknown.mk "k"⟩) sampleState rfl,
   c10_chat_frame.2.2.1 (Op.getChat "c1") sampleState rfl⟩

end TinyWebUI
